import Mathlib

/-!
Shallow embedding of the youtube_mcp repository core (channel reference
parsing, channel resolution, quota budgeting, and the three channel-video
listing pipelines), together with theorems settling the spec claims.

Python strings are modelled as `List Char` (`PyStr`) where character-level
reasoning is needed, and as Lean `String` elsewhere.  Python dicts decoded
from API responses are modelled by the `JVal` tree; a backend client is a
record of pure functions from (part, params) to a decoded response, and each
pipeline additionally returns the ordered list of backend calls it issued,
so that "raised before any backend call" is expressible.
-/

namespace YtMcp

/-- Python `str` modelled at character level. -/
abbrev PyStr := List Char

/-- The ASCII whitespace characters stripped by Python `str.strip()`
(Unicode whitespace beyond ASCII is not modelled). -/
def isPySpace (c : Char) : Bool :=
  c = ' ' ∨ c = '\t' ∨ c = '\n' ∨ c = '\r' ∨ c = '\x0b' ∨ c = '\x0c'

/-- Python `s.strip()`: drop whitespace from both ends. -/
def pyStrip (s : PyStr) : PyStr :=
  ((s.dropWhile isPySpace).reverse.dropWhile isPySpace).reverse

/-- Python `s.strip("/")`: drop slashes from both ends. -/
def stripSlashes (s : PyStr) : PyStr :=
  ((s.dropWhile (· = '/')).reverse.dropWhile (· = '/')).reverse

/-- Python `s.strip()` on a Lean `String`. -/
def pyStripS (s : String) : String :=
  String.mk (pyStrip s.toList)

/-- `src/youtube_mcp/channel_ref.py`: the five reference kinds. -/
inductive ChannelRefKind where
  | handle
  | channel_id
  | username
  | custom_url
  | query
deriving DecidableEq

/-- `channel_ref.ChannelRef`: normalized channel reference. -/
structure ChannelRef where
  kind : ChannelRefKind
  value : PyStr
  raw : PyStr
deriving DecidableEq

/-- The exception types raised by the embedded modules
(`ChannelRefParseError`, `ChannelResolutionError`, `ValueError`,
`QuotaBudgetExceeded`, `ChannelInventoryError`, and the `AttributeError`
Python would raise when `.get` is called on a non-mapping). -/
inductive Err where
  | parseError (msg : String)
  | resolutionError (msg : String)
  | valueError (msg : String)
  | quotaExceeded (msg : String)
  | inventoryError (msg : String)
  | attributeError (msg : String)
deriving DecidableEq

/-- `channel_ref._reject_separators`: test used by the fail-fast validation. -/
def hasSeparator (v : PyStr) : Bool :=
  v.any (fun c => c = '/' ∨ c = '?' ∨ c = '#')

/-- `channel_ref._looks_like_channel_id`: starts with "UC", length ≥ 16,
no space character. -/
def looks_like_channel_id (v : PyStr) : Bool :=
  ['U', 'C'].isPrefixOf v ∧ v.length ≥ 16 ∧ ¬ v.contains ' '

/-- `channel_ref._normalize_raw`: trim and reject empty input. -/
def normalize_raw (user_input : PyStr) : Except Err PyStr :=
  let raw := pyStrip user_input
  if raw = [] then .error (.parseError "Channel reference cannot be empty")
  else .ok raw

/-- The scheme characters accepted by Python `urllib.parse.urlsplit`. -/
def schemeChar (c : Char) : Bool :=
  c.isAlpha ∨ c.isDigit ∨ c = '+' ∨ c = '-' ∨ c = '.'

/-- The (scheme, netloc, path) triple extracted by `urllib.parse.urlparse`,
the only fields `channel_ref._try_parse_youtube_url` reads. -/
structure UrlParts where
  scheme : PyStr
  netloc : PyStr
  path : PyStr
deriving DecidableEq

/-- Whether the first character is an ASCII letter (Python
`url[0].isascii() and url[0].isalpha()`). -/
def headIsAlpha (url : PyStr) : Bool :=
  match url.head? with
  | some c => c.isAlpha
  | none => false

/-- `urllib.parse.urlsplit` scheme extraction: the part before the first
colon when it is non-empty, starts with a letter, and is all scheme
characters; the scheme is lowercased. -/
def splitUrlScheme (url : PyStr) : PyStr × PyStr :=
  match url.findIdx? (· = ':') with
  | none => ([], url)
  | some i =>
    if i > 0 ∧ headIsAlpha url ∧ (url.take i).all schemeChar
    then ((url.take i).map Char.toLower, url.drop (i + 1))
    else ([], url)

/-- Split a char list at the first occurrence of `c`, keeping the part
before it (Python `s.split(c, 1)[0]`). -/
def takeUntilChar (c : Char) (s : PyStr) : PyStr :=
  s.takeWhile (· ≠ c)

/-- `urllib.parse.urlsplit` restricted to the scheme/netloc/path fields
(query and fragment are split off and discarded; the bracketed-host
validation, which raises for malformed IPv6 literals, is not modelled). -/
def urlsplitSNP (url : PyStr) : UrlParts :=
  let (scheme, rest) := splitUrlScheme url
  let (netloc, rest2) :=
    if ['/', '/'].isPrefixOf rest then
      let after := rest.drop 2
      (after.takeWhile (fun c => c ≠ '/' ∧ c ≠ '?' ∧ c ≠ '#'),
       after.dropWhile (fun c => c ≠ '/' ∧ c ≠ '?' ∧ c ≠ '#'))
    else ([], rest)
  let noFrag := takeUntilChar '#' rest2
  let path := takeUntilChar '?' noFrag
  ⟨scheme, netloc, path⟩

/-- `channel_ref._YOUTUBE_HOSTS`. -/
def youtubeHosts : List PyStr :=
  ["youtube.com".toList, "www.youtube.com".toList, "m.youtube.com".toList]

/-- The `_require_non_empty` / `_reject_separators` validation pair applied
to a URL path segment by `channel_ref._try_parse_youtube_url`, followed by
construction of the reference. -/
def url_segment_ref (kind : ChannelRefKind) (seg : PyStr) (emptyMsg label : String)
    (raw : PyStr) : Except Err (Option ChannelRef) :=
  if seg = [] then .error (.parseError emptyMsg)
  else if hasSeparator seg then
    .error (.parseError (label ++ " contains invalid URL separator characters"))
  else .ok (some ⟨kind, seg, raw⟩)

/-- `channel_ref._try_parse_youtube_url`: classify a URL-shaped input, or
return `none` when it is not a recognized YouTube URL.  Can raise
`ChannelRefParseError` for empty or separator-containing path segments. -/
def try_parse_youtube_url (raw : PyStr) : Except Err (Option ChannelRef) :=
  let candidate :=
    if "youtube.com/".toList.isPrefixOf raw ∨ "www.youtube.com/".toList.isPrefixOf raw
        ∨ "m.youtube.com/".toList.isPrefixOf raw
    then "https://".toList ++ raw
    else raw
  let parts := urlsplitSNP candidate
  if parts.scheme ≠ [] ∧ parts.scheme ≠ "http".toList ∧ parts.scheme ≠ "https".toList then
    .ok none
  else
    let host := parts.netloc.map Char.toLower
    if host = [] ∨ ¬ youtubeHosts.contains host then .ok none
    else
      let path := parts.path
      if "/@".toList.isPrefixOf path then
        url_segment_ref .handle (stripSlashes (path.drop 2))
          "Handle cannot be empty" "Handle" raw
      else if "/channel/".toList.isPrefixOf path then
        url_segment_ref .channel_id (stripSlashes (path.drop 9))
          "Channel ID cannot be empty" "Channel ID" raw
      else if "/user/".toList.isPrefixOf path then
        url_segment_ref .username (stripSlashes (path.drop 6))
          "Username cannot be empty" "Username" raw
      else if "/c/".toList.isPrefixOf path then
        url_segment_ref .custom_url (stripSlashes (path.drop 3))
          "Custom URL segment cannot be empty" "Custom URL segment" raw
      else .ok (some ⟨.query, raw, raw⟩)

/-- `channel_ref.parse_channel_ref`: classify a user-supplied channel
reference. -/
def parse_channel_ref (user_input : PyStr) : Except Err ChannelRef :=
  match normalize_raw user_input with
  | .error e => .error e
  | .ok raw =>
    if raw.head? = some '@' then
      let handle := pyStrip (raw.drop 1)
      if handle = [] then .error (.parseError "Handle cannot be empty")
      else if hasSeparator handle then
        .error (.parseError "Handle contains invalid URL separator characters")
      else .ok ⟨.handle, handle, raw⟩
    else if looks_like_channel_id raw then .ok ⟨.channel_id, raw, raw⟩
    else
      match try_parse_youtube_url raw with
      | .error e => .error e
      | .ok (some ref) => .ok ref
      | .ok none => .ok ⟨.query, raw, raw⟩

/-! ## Quota budgeter (`src/youtube_mcp/quota_budgeter.py`) -/

/-- `quota_budgeter.OrderStrategy`. -/
inductive OrderStrategy where
  | uploads_playlist
  | local_sort
  | search_api
deriving DecidableEq

/-- `quota_budgeter.QuotaBudget` (defaults 200 / 10 / 1000 are supplied at
call sites). -/
structure QuotaBudget where
  max_videos : Int
  max_pages : Int
  max_quota_units : Int
deriving DecidableEq

/-- `quota_budgeter.QuotaEstimate`. -/
structure QuotaEstimate where
  estimated_units : Int
  strategy : OrderStrategy
  notes : List String
deriving DecidableEq

/-- Python `//` (floor division) on `Int`. -/
def pyFloorDiv (a b : Int) : Int := Int.fdiv a b

/-- The unit count computed by `quota_budgeter.estimate_channel_videos_quota`
for a given strategy: pages (capped at `budget.max_pages`) times the per-page
cost, plus one read unit per detail batch of up to 50 ids when requested.
For `search_api` the effective item count is first capped at 500. -/
def quota_units (strategy : OrderStrategy) (requested_max_videos : Int)
    (budget : QuotaBudget) (include_video_details : Bool) : Int :=
  let max_videos := min requested_max_videos budget.max_videos
  match strategy with
  | .uploads_playlist | .local_sort =>
    min (pyFloorDiv (max_videos + 49) 50) budget.max_pages * 1
      + (if include_video_details then pyFloorDiv (max_videos + 49) 50 * 1 else 0)
  | .search_api =>
    let capped_videos := min max_videos 500
    min (pyFloorDiv (capped_videos + 49) 50) budget.max_pages * 100
      + (if include_video_details then pyFloorDiv (capped_videos + 49) 50 * 1 else 0)

/-- The notes accumulated by `quota_budgeter.estimate_channel_videos_quota`,
in source order: request truncation, page truncation, then (for `search_api`
only) the 500-item cap note. -/
def quota_notes (strategy : OrderStrategy) (requested_max_videos : Int)
    (budget : QuotaBudget) : List String :=
  let max_videos := min requested_max_videos budget.max_videos
  (if requested_max_videos > budget.max_videos
   then ["requested_max_videos truncated to budget.max_videos"] else [])
  ++ (if min (pyFloorDiv (max_videos + 49) 50) budget.max_pages
        < pyFloorDiv (max_videos + 49) 50
      then ["pages truncated to budget.max_pages"] else [])
  ++ (match strategy with
      | .search_api =>
        if min max_videos 500 < max_videos
        then ["search_api is capped to 500 videos by API behavior"] else []
      | _ => [])

/-- `quota_budgeter.estimate_channel_videos_quota`: reject a non-positive
request, compute the per-strategy unit estimate and notes, and fail when the
estimate exceeds `budget.max_quota_units`.  (The source interleaves the unit
and note computation per strategy branch; the arithmetic and the guard are
identical.) -/
def estimate_channel_videos_quota (strategy : OrderStrategy) (requested_max_videos : Int)
    (budget : QuotaBudget) (include_video_details : Bool) : Except Err QuotaEstimate :=
  if requested_max_videos ≤ 0 then .error (.valueError "requested_max_videos must be positive")
  else if quota_units strategy requested_max_videos budget include_video_details
      > budget.max_quota_units then
    .error (.quotaExceeded ("Estimated quota "
      ++ toString (quota_units strategy requested_max_videos budget include_video_details)
      ++ " exceeds max_quota_units=" ++ toString budget.max_quota_units))
  else .ok ⟨quota_units strategy requested_max_videos budget include_video_details,
    strategy, quota_notes strategy requested_max_videos budget⟩

/-! ## Decoded API responses and the backend client -/

/-- Decoded JSON-ish values appearing in backend responses (Python objects:
`None`, `str`, `int`, `dict`, `list`). -/
inductive JVal where
  | null
  | str (v : String)
  | int (v : Int)
  | obj (kv : List (String × JVal))
  | arr (xs : List JVal)

/-- Python `d.get(k)` on a decoded dict, returning `None` when absent. -/
def lookupJ (kv : List (String × JVal)) (k : String) : JVal :=
  match kv.lookup k with
  | some v => v
  | none => .null

/-- Python `x.get(k)` where `x` was already checked with
`isinstance(x, dict)`; on a non-dict this model returns `None` and is only
used after such a check. -/
def jGetJ (x : JVal) (k : String) : JVal :=
  match x with
  | .obj kv => lookupJ kv k
  | _ => .null

/-- A decoded API response: a Python dict. -/
abbrev Resp := List (String × JVal)

/-- The backend operations the embedded pipelines use, for call records. -/
inductive ApiOp where
  | channelsList
  | playlistItemsList
  | videosList
  | searchList
deriving DecidableEq

/-- One issued backend call: operation, part selector, parameters in
insertion order. -/
structure Call where
  op : ApiOp
  part : String
  params : List (String × String)
deriving DecidableEq

/-- `youtube_client_protocol.IYouTubeClient` restricted to the four
operations the embedded pipelines invoke: each operation is a pure function
from (part, params) to a decoded response. -/
structure Client where
  channels_list : String → List (String × String) → Resp
  playlist_items_list : String → List (String × String) → Resp
  videos_list : String → List (String × String) → Resp
  search_list : String → List (String × String) → Resp

/-- Python truthiness of an optional-string parameter
(`if page_token: ...`). -/
def truthyOpt (t : Option String) : Bool :=
  match t with
  | none => false
  | some s => s ≠ ""

/-! ## Identifier extraction (`playlist_items_extract.py` and
`_extract_search_video_ids`) -/

/-- The `snippet.resourceId.videoId` value of one `playlistItems.list` item,
or `none` when the item fails the defensive shape checks of
`playlist_items_extract.extract_video_ids`. -/
def playlistItemVid (it : JVal) : Option String :=
  match it with
  | .obj kv =>
    match lookupJ kv "snippet" with
    | .obj sn =>
      match lookupJ sn "resourceId" with
      | .obj rid =>
        match lookupJ rid "videoId" with
        | .str v => if v = "" then none else some v
        | _ => none
      | _ => none
    | _ => none
  | _ => none

/-- Python `limit is not None and len(out) >= limit`. -/
def limitReached (limit : Option Int) (n : Nat) : Bool :=
  match limit with
  | some l => (n : Int) ≥ l
  | none => false

/-- Loop of `playlist_items_extract.extract_video_ids`: the `seen` set is
modelled as membership in the accumulated output (they always hold the same
identifiers). -/
def extractVidGo (its : List JVal) (limit : Option Int) (out : List String) : List String :=
  match its with
  | [] => out
  | it :: rest =>
    if limitReached limit out.length then out
    else
      match playlistItemVid it with
      | none => extractVidGo rest limit out
      | some vid =>
        if out.contains vid then extractVidGo rest limit out
        else extractVidGo rest limit (out ++ [vid])

/-- `playlist_items_extract.extract_video_ids`. -/
def extract_video_ids (items : JVal) (limit : Option Int) : List String :=
  match items with
  | .arr its => extractVidGo its limit []
  | _ => []

/-- The `id.videoId` value of one `search.list` item, or `none` when the
item fails the shape checks of `_extract_search_video_ids` (in
`channel_videos_ordering_search.py` and, identically, `channel_search.py`). -/
def searchItemVid (it : JVal) : Option String :=
  match it with
  | .obj kv =>
    match lookupJ kv "id" with
    | .obj idkv =>
      match lookupJ idkv "videoId" with
      | .str v => if v = "" then none else some v
      | _ => none
    | _ => none
  | _ => none

/-- Loop of `_extract_search_video_ids` (note: no deduplication). -/
def extractSearchGo (its : List JVal) (limit : Int) (out : List String) : List String :=
  match its with
  | [] => out
  | it :: rest =>
    if (out.length : Int) ≥ limit then out
    else
      match searchItemVid it with
      | none => extractSearchGo rest limit out
      | some vid => extractSearchGo rest limit (out ++ [vid])

/-- `_extract_search_video_ids` (shared verbatim by
`channel_videos_ordering_search.py` and `channel_search.py`). -/
def extract_search_video_ids (items : JVal) (limit : Int) : List String :=
  match items with
  | .arr its => extractSearchGo its limit []
  | _ => []

/-- Spec-side description of extraction: the well-formed playlist-item
identifiers in scan order, duplicates included. -/
def goodPlaylistIds (its : List JVal) : List String :=
  its.filterMap playlistItemVid

/-- Spec-side description of extraction: the well-formed search-item
identifiers in scan order, duplicates included. -/
def goodSearchIds (its : List JVal) : List String :=
  its.filterMap searchItemVid

/-- Spec-side first-occurrence deduplication relative to already-seen
identifiers. -/
def dedupFrom (seen : List String) : List String → List String
  | [] => []
  | x :: xs => if seen.contains x then dedupFrom seen xs else x :: dedupFrom (seen ++ [x]) xs

/-- Spec-side first-occurrence deduplication. -/
def dedupKeepFirst (l : List String) : List String :=
  dedupFrom [] l

/-! ## Classification and filtering (`video_classification.py`,
`video_sorting.py`) -/

/-- Decimal value of a digit run. -/
def digitsToNat (ds : List Char) : Nat :=
  ds.foldl (fun a c => a * 10 + (c.toNat - 48)) 0

/-- Match one optional `(\d+)X` group of the duration pattern: consume a
non-empty digit run followed by `marker`, else leave the input unchanged
and contribute 0. -/
def parseDurationPart (cs : List Char) (marker : Char) : Nat × List Char :=
  let ds := cs.takeWhile Char.isDigit
  let rest := cs.dropWhile Char.isDigit
  if ds ≠ [] ∧ rest.head? = some marker then (digitsToNat ds, rest.drop 1)
  else (0, cs)

/-- `video_classification.parse_duration_seconds`: match the anchored
pattern PT(h H)?(m M)?(s S)? and convert to seconds; `none` when the string
does not match.  (The source additionally guards against negative group
values, which digit runs cannot produce.) -/
def parse_duration_seconds (duration : String) : Option Int :=
  match duration.toList with
  | 'P' :: 'T' :: rest =>
    let (h, r1) := parseDurationPart rest 'H'
    let (m, r2) := parseDurationPart r1 'M'
    let (sec, r3) := parseDurationPart r2 'S'
    if r3 = [] then
      if (h : Int) < 0 ∨ (m : Int) < 0 ∨ (sec : Int) < 0 then none
      else some ((h : Int) * 3600 + (m : Int) * 60 + (sec : Int))
    else none
  | _ => none

/-- `video_classification.is_short`: duration parses and is ≤ 60 seconds.
Calling it on a non-dict raises (Python `AttributeError` on `.get`). -/
def is_short (video : JVal) : Except Err Bool :=
  match video with
  | .obj kv =>
    .ok (match lookupJ kv "contentDetails" with
      | .obj cd =>
        (match lookupJ cd "duration" with
         | .str d =>
           (match parse_duration_seconds d with
            | some seconds => seconds ≤ 60
            | none => false)
         | _ => false)
      | _ => false)
  | _ => .error (.attributeError "get")

/-- `video_classification.is_live`: `snippet.liveBroadcastContent` is
`live` or `upcoming`.  Calling it on a non-dict raises. -/
def is_live (video : JVal) : Except Err Bool :=
  match video with
  | .obj kv =>
    .ok (match lookupJ kv "snippet" with
      | .obj sn =>
        (match lookupJ sn "liveBroadcastContent" with
         | .str v => v = "live" ∨ v = "upcoming"
         | _ => false)
      | _ => false)
  | _ => .error (.attributeError "get")

/-- `video_sorting.filter_videos` (the identical private
`channel_inventory._filter_videos` is modelled by the same function).
Python short-circuit: with `include_shorts`/`include_live` set the
corresponding predicate is never evaluated. -/
def filter_videos (videos : List JVal) (include_shorts include_live : Bool) :
    Except Err (List JVal) :=
  match videos with
  | [] => .ok []
  | v :: vs =>
    match (if include_shorts then .ok false else is_short v : Except Err Bool) with
    | .error e => .error e
    | .ok skipShort =>
      if skipShort then filter_videos vs include_shorts include_live
      else
        match (if include_live then .ok false else is_live v : Except Err Bool) with
        | .error e => .error e
        | .ok skipLive =>
          if skipLive then filter_videos vs include_shorts include_live
          else
            match filter_videos vs include_shorts include_live with
            | .error e => .error e
            | .ok rest => .ok (v :: rest)

/-- Python `int(x)` on the decoded statistics values used by
`video_sorting.sort_key`: an int passes through, a string of digits (with
optional sign) converts, anything else raises.  (Underscore separators and
non-ASCII digits accepted by Python `int` are not modelled.) -/
def pyInt (x : JVal) : Except Err Int :=
  match x with
  | .int n => .ok n
  | .str s =>
    match s.toList with
    | '-' :: ds => if ds ≠ [] ∧ ds.all Char.isDigit
        then .ok (-(digitsToNat ds : Int)) else .error (.valueError "invalid literal for int")
    | '+' :: ds => if ds ≠ [] ∧ ds.all Char.isDigit
        then .ok (digitsToNat ds : Int) else .error (.valueError "invalid literal for int")
    | ds => if ds ≠ [] ∧ ds.all Char.isDigit
        then .ok (digitsToNat ds : Int) else .error (.valueError "invalid literal for int")
  | _ => .error (.valueError "invalid literal for int")

/-- Python falsiness of the `stats.get(key, 0) or 0` idiom: `None`, `0`,
and the empty string are replaced by `0` before conversion. -/
def statValueOrZero (x : JVal) : JVal :=
  match x with
  | .null => .int 0
  | .str s => if s = "" then .int 0 else .str s
  | .int n => if n = 0 then .int 0 else .int n
  | v => v

/-- `video_sorting.sort_key`. -/
def sort_key (video : JVal) (order_by : String) : Except Err Int :=
  let stats := match jGetJ video "statistics" with
    | .obj kv => JVal.obj kv
    | _ => JVal.obj []
  if order_by = "viewCount" then pyInt (statValueOrZero (jGetJ stats "viewCount"))
  else if order_by = "likeCount" then pyInt (statValueOrZero (jGetJ stats "likeCount"))
  else if order_by = "commentCount" then pyInt (statValueOrZero (jGetJ stats "commentCount"))
  else if order_by = "duration" then
    let cd := match jGetJ video "contentDetails" with
      | .obj kv => JVal.obj kv
      | _ => JVal.obj []
    match jGetJ cd "duration" with
    | .str d => .ok (match parse_duration_seconds d with
        | some n => n
        | none => 0)
    | _ => .ok 0
  else .ok 0

/-- Decorate each video with its sort key, in order (Python `sorted`
evaluates the key function on each element first, raising on the first
failure). -/
def decorateKeys (videos : List JVal) (order_by : String) : Except Err (List (Int × JVal)) :=
  match videos with
  | [] => .ok []
  | v :: vs =>
    match sort_key v order_by with
    | .error e => .error e
    | .ok k =>
      match decorateKeys vs order_by with
      | .error e => .error e
      | .ok rest => .ok ((k, v) :: rest)

/-- Stable insertion (strictly-greater keys stay in front, equal keys keep
their original relative order), modelling Python
`sorted(..., reverse=True)`. -/
def insertDescending (x : Int × JVal) : List (Int × JVal) → List (Int × JVal)
  | [] => [x]
  | y :: ys => if x.1 > y.1 then x :: y :: ys else y :: insertDescending x ys

/-- Stable descending sort by precomputed key. -/
def sortDescending (l : List (Int × JVal)) : List (Int × JVal) :=
  l.foldl (fun acc x => insertDescending x acc) []

/-! ## Channel resolution (`channel_resolver.py`) -/

/-- `channel_resolver.ResolutionMode`. -/
inductive ResolutionMode where
  | strict
  | best_effort
deriving DecidableEq

/-- `channel_resolver.ChannelCandidate`. -/
structure ChannelCandidate where
  channel_id : String
  title : Option String
  handle : Option String
deriving DecidableEq

/-- `channel_resolver.ResolvedChannel`.  The `channel_id` field is declared
`str` in the source but receives `_get_str`'s `str | None` at runtime, so it
is modelled as an option; the best-effort path sets it to `some ""`. -/
structure ResolvedChannel where
  channel_id : Option String
  title : Option String
  handle : Option String
  uploads_playlist_id : Option String
  warnings : List String
  candidates : List ChannelCandidate

/-- `channel_resolver._get_str`: a non-empty string value of a dict key,
else `None`. -/
def get_str (obj : JVal) (key : String) : Option String :=
  match obj with
  | .obj kv =>
    match lookupJ kv key with
    | .str v => if v = "" then none else some v
    | _ => none
  | _ => none

/-- `channel_resolver._extract_uploads_playlist_id`: navigate
`contentDetails.relatedPlaylists.uploads`, requiring a non-empty string. -/
def extract_uploads_playlist_id (item : JVal) : Option String :=
  match item with
  | .obj kv =>
    match lookupJ kv "contentDetails" with
    | .obj cd =>
      match lookupJ cd "relatedPlaylists" with
      | .obj rp =>
        match lookupJ rp "uploads" with
        | .str u => if u = "" then none else some u
        | _ => none
      | _ => none
    | _ => none
  | _ => none

/-- `channel_resolver._resolve_channels_list`: one `channels.list` call,
expecting exactly one item. -/
def resolve_channels_list (client : Client) (filter_params : List (String × String))
    (include_uploads_playlist : Bool) : Except Err ResolvedChannel × List Call :=
  let part := if include_uploads_playlist then "snippet,id,contentDetails" else "snippet,id"
  let data := client.channels_list part filter_params
  let calls := [⟨.channelsList, part, filter_params⟩]
  match lookupJ data "items" with
  | .arr (_ :: _ :: _) =>
    (.error (.resolutionError "Multiple channels matched unexpectedly"), calls)
  | .arr [item] =>
      let uploads :=
        if include_uploads_playlist then extract_uploads_playlist_id item else none
      let warnings :=
        if include_uploads_playlist ∧ uploads = none
        then ["uploadsPlaylistId not available"] else []
      (.ok ⟨get_str item "id", get_str (jGetJ item "snippet") "title",
        get_str (jGetJ item "snippet") "customUrl", uploads, warnings, []⟩, calls)
  | _ => (.error (.resolutionError "Channel not found"), calls)

/-- One `search.list` item mapped to a candidate by
`channel_resolver._resolve_best_effort_query`, or `none` when the item is
skipped by the shape checks. -/
def searchItemCandidate (item : JVal) : Option ChannelCandidate :=
  match item with
  | .obj kv =>
    match lookupJ kv "id" with
    | .obj idkv =>
      match lookupJ idkv "channelId" with
      | .str cid =>
        if cid = "" then none
        else some ⟨cid, get_str (jGetJ item "snippet") "title",
          get_str (jGetJ item "snippet") "channelTitle"⟩
      | _ => none
    | _ => none
  | _ => none

/-- The parameters of the best-effort candidate search (hard cap 5,
channel-typed results). -/
def bestEffortSearchParams (query : PyStr) : List (String × String) :=
  [("q", String.mk query), ("type", "channel"), ("maxResults", "5")]

/-- `channel_resolver._resolve_best_effort_query`: candidates only, never
auto-selected; raises when the query is blank or the search returns no
usable item list. -/
def resolve_best_effort_query (client : Client) (query : PyStr)
    (_include_uploads_playlist : Bool) : Except Err ResolvedChannel × List Call :=
  if pyStrip query = [] then (.error (.resolutionError "Query cannot be empty"), [])
  else
    let params := bestEffortSearchParams query
    let data := client.search_list "snippet" params
    let calls := [⟨.searchList, "snippet", params⟩]
    match lookupJ data "items" with
    | .arr (i :: is) =>
      (.ok ⟨some "", none, none, none, ["best_effort_candidates_only"],
        (i :: is).filterMap searchItemCandidate⟩, calls)
    | _ => (.error (.resolutionError "No channel candidates found"), calls)

/-- `channel_resolver.resolve_channel`: parse, reclassify `custom_url` in
best-effort mode, and dispatch on the reference kind. -/
def resolve_channel (client : Client) (channel_ref : PyStr) (mode : ResolutionMode)
    (include_uploads_playlist : Bool) : Except Err ResolvedChannel × List Call :=
  match parse_channel_ref channel_ref with
  | .error e => (.error e, [])
  | .ok ref0 =>
    if ref0.kind = .custom_url ∧ mode = .strict then
      (.error (.resolutionError ("Custom channel URLs (/c/...) cannot be resolved deterministically. "
        ++ "Provide @handle or /channel/<id> or /user/<username>.")), [])
    else
      let ref := if ref0.kind = .custom_url then ChannelRef.mk .query ref0.value ref0.raw else ref0
      match ref.kind with
      | .query =>
        if mode = .strict then
          (.error (.resolutionError ("Ambiguous channel reference. "
            ++ "Provide @handle, channel URL (/channel/UC...), or /user/<username>.")), [])
        else resolve_best_effort_query client ref.value include_uploads_playlist
      | .handle =>
        resolve_channels_list client [("forHandle", "@" ++ String.mk ref.value)]
          include_uploads_playlist
      | .channel_id =>
        resolve_channels_list client [("id", String.mk ref.value)] include_uploads_playlist
      | .username =>
        resolve_channels_list client [("forUsername", String.mk ref.value)]
          include_uploads_playlist
      | .custom_url =>
        (.error (.resolutionError "Unsupported channel ref kind: custom_url"), [])

/-! ## Listing pipelines (`channel_inventory.py`,
`channel_videos_ordering_local.py`, `channel_videos_ordering_search.py`,
`channel_search.py`) -/

/-- `inventory_types.PartsLevel`. -/
inductive PartsLevel where
  | basic
  | full
deriving DecidableEq

/-- `inventory_types.ChannelVideosPage`. -/
structure ChannelVideosPage where
  items : List JVal
  next_page_token : Option String
  quota_estimate : QuotaEstimate
  truncated : Bool
  applied_max_videos : Nat

/-- The `videos.list` part selector chosen from the parts level (identical
in all three pipelines). -/
def detailPart (parts_level : PartsLevel) : String :=
  if parts_level = .basic then "snippet,statistics,contentDetails"
  else "snippet,statistics,contentDetails,liveStreamingDetails,status"

/-- The `pageToken` parameter added only when the token is truthy
(`if page_token: params["pageToken"] = page_token`). -/
def tokenParams (page_token : Option String) : List (String × String) :=
  match page_token with
  | some t => if t = "" then [] else [("pageToken", t)]
  | none => []

/-- `response.get("items")` coerced to a list, else `[]`
(`items if isinstance(items, list) else []`). -/
def respItems (resp : Resp) : List JVal :=
  match lookupJ resp "items" with
  | .arr xs => xs
  | _ => []

/-- `response.get("nextPageToken")` kept only when a non-empty string
(`next_token if isinstance(next_token, str) and next_token else None`). -/
def nextTokenOf (resp : Resp) : Option String :=
  match lookupJ resp "nextPageToken" with
  | .str t => if t = "" then none else some t
  | _ => none

/-- The `playlistItems.list` parameters built by
`channel_inventory.list_channel_videos_page`. -/
def uploads_playlist_params (uploads : String) (page_token : Option String) :
    List (String × String) :=
  [("playlistId", uploads), ("maxResults", "50")] ++ tokenParams page_token

/-- Tail of `channel_inventory.list_channel_videos_page` after budgeting and
resolution: fetch one collection page, extract/truncate identifiers,
batch-fetch records, filter, and pass the continuation token through. -/
def uploadsAfterResolve (client : Client) (max_videos : Int) (page_token : Option String)
    (include_shorts include_live : Bool) (parts_level : PartsLevel)
    (quota_est : QuotaEstimate) (uploads : String) (calls : List Call) :
    Except Err ChannelVideosPage × List Call :=
  let playlist_params := uploads_playlist_params uploads page_token
  let presp := client.playlist_items_list "snippet,contentDetails" playlist_params
  let calls2 := calls ++ [⟨.playlistItemsList, "snippet,contentDetails", playlist_params⟩]
  let ids0 := extract_video_ids (lookupJ presp "items") none
  let truncated := decide (max_videos < (ids0.length : Int))
  let video_ids := if max_videos < (ids0.length : Int) then ids0.take max_videos.toNat else ids0
  match video_ids with
  | [] => (.ok ⟨[], none, quota_est, false, 0⟩, calls2)
  | _ =>
    let part := detailPart parts_level
    let vparams := [("id", String.intercalate "," video_ids)]
    let vresp := client.videos_list part vparams
    let calls3 := calls2 ++ [⟨.videosList, part, vparams⟩]
    match filter_videos (respItems vresp) include_shorts include_live with
    | .error e => (.error e, calls3)
    | .ok filtered =>
      (.ok ⟨filtered, nextTokenOf presp, quota_est, truncated, video_ids.length⟩, calls3)

/-- `channel_inventory.list_channel_videos_page` (uploads_playlist
strategy). -/
def list_channel_videos_page (client : Client) (channel_ref : PyStr) (max_videos : Int)
    (page_token : Option String) (include_shorts include_live : Bool)
    (parts_level : PartsLevel) (budget : QuotaBudget) :
    Except Err ChannelVideosPage × List Call :=
  match estimate_channel_videos_quota .uploads_playlist max_videos budget true with
  | .error e => (.error e, [])
  | .ok quota_est =>
    match resolve_channel client channel_ref .strict true with
    | (.error e, calls) => (.error e, calls)
    | (.ok resolved, calls) =>
      match resolved.uploads_playlist_id with
      | none => (.error (.inventoryError "uploadsPlaylistId not available for this channel"), calls)
      | some u =>
        if u = "" then
          (.error (.inventoryError "uploadsPlaylistId not available for this channel"), calls)
        else uploadsAfterResolve client max_videos page_token include_shorts include_live
          parts_level quota_est u calls

/-- The `search.list` parameters built by
`channel_videos_ordering_search.list_channel_videos_search_api`. -/
def searchParams (channel_id : String) (order_by : String) (page_token : Option String) :
    List (String × String) :=
  [("channelId", channel_id), ("type", "video"), ("order", order_by), ("maxResults", "50")]
    ++ tokenParams page_token

/-- Shared tail of the two search-based read paths: issue the search,
extract up to `max_videos` identifiers, batch-fetch records, filter, and
pass the search continuation token through with `truncated` always false. -/
def searchTail (client : Client) (params : List (String × String)) (max_videos : Int)
    (include_shorts include_live : Bool) (parts_level : PartsLevel)
    (quota_est : QuotaEstimate) (calls : List Call) :
    Except Err ChannelVideosPage × List Call :=
  let resp := client.search_list "snippet" params
  let calls2 := calls ++ [⟨.searchList, "snippet", params⟩]
  let ids := extract_search_video_ids (lookupJ resp "items") max_videos
  match ids with
  | [] => (.ok ⟨[], none, quota_est, false, 0⟩, calls2)
  | _ =>
    let part := detailPart parts_level
    let vparams := [("id", String.intercalate "," ids)]
    let vresp := client.videos_list part vparams
    let calls3 := calls2 ++ [⟨.videosList, part, vparams⟩]
    match filter_videos (respItems vresp) include_shorts include_live with
    | .error e => (.error e, calls3)
    | .ok filtered =>
      (.ok ⟨filtered, nextTokenOf resp, quota_est, false, ids.length⟩, calls3)

/-- `channel_videos_ordering_search.list_channel_videos_search_api`
(search_api strategy).  The resolver is consulted without the uploads
playlist; a runtime `None` channel id (see `ResolvedChannel.channel_id`) is
modelled as the empty string in the search parameters. -/
def list_channel_videos_search_api (client : Client) (channel_ref : PyStr)
    (order_by : String) (max_videos : Int) (page_token : Option String)
    (include_shorts include_live : Bool) (parts_level : PartsLevel)
    (budget : QuotaBudget) : Except Err ChannelVideosPage × List Call :=
  if order_by ≠ "date" ∧ order_by ≠ "viewCount" then
    (.error (.valueError
      "search_api supports only order_by in \x7b\x27date\x27,\x27viewCount\x27\x7d"), [])
  else
    match estimate_channel_videos_quota .search_api max_videos budget true with
    | .error e => (.error e, [])
    | .ok quota_est =>
      match resolve_channel client channel_ref .strict false with
      | (.error e, calls) => (.error e, calls)
      | (.ok resolved, calls) =>
        searchTail client (searchParams (resolved.channel_id.getD "") order_by page_token)
          max_videos include_shorts include_live parts_level quota_est calls

/-- The `search.list` parameters built by
`channel_search.search_channel_videos_page`. -/
def channelSearchParams (channel_id query order : String) (page_token : Option String) :
    List (String × String) :=
  [("channelId", channel_id), ("type", "video"), ("q", query), ("order", order),
    ("maxResults", "50")] ++ tokenParams page_token

/-- `channel_search.search_channel_videos_page`: keyword search within a
channel; requires a non-blank query and forwards `order` unmodified. -/
def search_channel_videos_page (client : Client) (channel_ref : PyStr) (query : String)
    (page_token : Option String) (max_videos : Int) (include_shorts include_live : Bool)
    (parts_level : PartsLevel) (order : String) (budget : QuotaBudget) :
    Except Err ChannelVideosPage × List Call :=
  if query = "" ∨ pyStripS query = "" then (.error (.valueError "query is required"), [])
  else
    match estimate_channel_videos_quota .search_api max_videos budget true with
    | .error e => (.error e, [])
    | .ok quota_est =>
      match resolve_channel client channel_ref .strict false with
      | (.error e, calls) => (.error e, calls)
      | (.ok resolved, calls) =>
        searchTail client
          (channelSearchParams (resolved.channel_id.getD "") query order page_token)
          max_videos include_shorts include_live parts_level quota_est calls

/-- The accumulation loop of
`channel_videos_ordering_local.list_channel_videos_local_sorted`: fetch
collection pages until enough identifiers are collected, the page budget is
reached (the fuel argument counts the remaining allowed pages), or the
backend reports no continuation.  Returns (ids, final token, calls). -/
def local_collect (client : Client) (uploads : String) (max_videos : Int) :
    Nat → Option String → List String → List Call →
      List String × Option String × List Call
  | 0, token, ids, calls => (ids, token, calls)
  | fuel + 1, token, ids, calls =>
    if (ids.length : Int) < max_videos then
      let params := [("playlistId", uploads), ("maxResults", "50")] ++ tokenParams token
      let resp := client.playlist_items_list "snippet,contentDetails" params
      let ids2 := ids ++ extract_video_ids (lookupJ resp "items") none
      let calls2 := calls ++ [⟨.playlistItemsList, "snippet,contentDetails", params⟩]
      match nextTokenOf resp with
      | none => (ids2, none, calls2)
      | some t => local_collect client uploads max_videos fuel (some t) ids2 calls2
    else (ids, token, calls)

/-- The detail-batching loop of the local_sort strategy: batches of up to 50
identifiers, keeping only dict items of each response.  The fuel argument is
instantiated with the identifier count, which bounds the number of batches. -/
def fetch_batches (client : Client) (part : String) :
    Nat → List String → List JVal × List Call
  | _, [] => ([], [])
  | 0, _ :: _ => ([], [])
  | fuel + 1, id0 :: restIds =>
    let batch := (id0 :: restIds).take 50
    let vparams := [("id", String.intercalate "," batch)]
    let vresp := client.videos_list part vparams
    let items := (respItems vresp).filter (fun v =>
      match v with
      | .obj _ => true
      | _ => false)
    let nxt := fetch_batches client part fuel ((id0 :: restIds).drop 50)
    (items ++ nxt.1, ⟨.videosList, part, vparams⟩ :: nxt.2)

/-- Tail of the local_sort pipeline after budgeting and resolution: collect
identifiers, compute the truncation flag, truncate, batch-fetch, filter and
stable-sort descending; never returns a continuation token. -/
def localAfterResolve (client : Client) (order_by : String) (max_videos : Int)
    (include_shorts include_live : Bool) (parts_level : PartsLevel)
    (quota_est : QuotaEstimate) (uploads : String) (max_pages : Int)
    (calls : List Call) : Except Err ChannelVideosPage × List Call :=
  let col := local_collect client uploads max_videos max_pages.toNat none [] calls
  let ids0 := col.1
  let token := col.2.1
  let calls2 := col.2.2
  let truncated := decide ((ids0.length : Int) > max_videos) || token.isSome
  let ids := ids0.take max_videos.toNat
  let fb := fetch_batches client (detailPart parts_level) ids.length ids
  let calls3 := calls2 ++ fb.2
  match filter_videos fb.1 include_shorts include_live with
  | .error e => (.error e, calls3)
  | .ok filtered =>
    match decorateKeys filtered order_by with
    | .error e => (.error e, calls3)
    | .ok dec =>
      (.ok ⟨(sortDescending dec).map Prod.snd, none, quota_est, truncated, ids.length⟩, calls3)

/-- `channel_videos_ordering_local.list_channel_videos_local_sorted`
(local_sort strategy): rejects any truthy continuation token before doing
anything else. -/
def list_channel_videos_local_sorted (client : Client) (channel_ref : PyStr)
    (order_by : String) (max_videos : Int) (page_token : Option String)
    (include_shorts include_live : Bool) (parts_level : PartsLevel)
    (budget : QuotaBudget) : Except Err ChannelVideosPage × List Call :=
  if truthyOpt page_token then
    (.error (.valueError "page_token is not supported for local_sort"), [])
  else
    match estimate_channel_videos_quota .local_sort max_videos budget true with
    | .error e => (.error e, [])
    | .ok quota_est =>
      match resolve_channel client channel_ref .strict true with
      | (.error e, calls) => (.error e, calls)
      | (.ok resolved, calls) =>
        match resolved.uploads_playlist_id with
        | none => (.error (.valueError "uploadsPlaylistId not available"), calls)
        | some u =>
          if u = "" then (.error (.valueError "uploadsPlaylistId not available"), calls)
          else localAfterResolve client order_by max_videos include_shorts include_live
            parts_level quota_est u budget.max_pages calls

/-! ## Concrete test backends -/

/-- Test backend whose keyword search returns an empty item list. -/
def emptySearchClient : Client where
  channels_list := fun _ _ => []
  playlist_items_list := fun _ _ => []
  videos_list := fun _ _ => []
  search_list := fun _ _ => [("items", .arr [])]

/-- Test backend whose keyword search returns one well-formed channel item. -/
def oneCandidateClient : Client where
  channels_list := fun _ _ => []
  playlist_items_list := fun _ _ => []
  videos_list := fun _ _ => []
  search_list := fun _ _ =>
    [("items", .arr [.obj [("id", .obj [("channelId", .str "UCc1")]),
      ("snippet", .obj [("title", .str "Acme"), ("channelTitle", .str "AcmeHandle")])]])]

/-- A `search.list` item carrying videoId "v1". -/
def dupSearchItem : JVal := .obj [("id", .obj [("videoId", .str "v1")])]

/-- A well-formed `playlistItems.list` item for the given video id. -/
def mkPlaylistItem (vid : String) : JVal :=
  .obj [("snippet", .obj [("resourceId", .obj [("videoId", .str vid)])])]

/-- Test backend mirroring the repository's inventory unit-test fake: one
resolvable channel with uploads playlist "UU_x", a three-item collection
page with continuation "NEXT", and two plain records from the batch
lookup. -/
def inventoryClient : Client where
  channels_list := fun _ _ =>
    [("items", .arr [.obj [("id", .str "UC_x"),
      ("snippet", .obj [("title", .str "T"), ("customUrl", .str "@Handle")]),
      ("contentDetails", .obj [("relatedPlaylists", .obj [("uploads", .str "UU_x")])])]])]
  playlist_items_list := fun _ _ =>
    [("items", .arr [mkPlaylistItem "v1", mkPlaylistItem "v2", mkPlaylistItem "v3"]),
     ("nextPageToken", .str "NEXT")]
  videos_list := fun _ _ =>
    [("items", .arr [.obj [("id", .str "v1")], .obj [("id", .str "v2")]])]
  search_list := fun _ _ => []

/-- Test backend like `inventoryClient` but whose collection page has only
malformed items (so zero identifiers extract) while still carrying a
continuation token. -/
def emptyPageClient : Client where
  channels_list := fun _ _ =>
    [("items", .arr [.obj [("id", .str "UC_x"),
      ("snippet", .obj [("title", .str "T"), ("customUrl", .str "@Handle")]),
      ("contentDetails", .obj [("relatedPlaylists", .obj [("uploads", .str "UU_x")])])]])]
  playlist_items_list := fun _ _ =>
    [("items", .arr [.str "bogus", .obj [("snippet", .str "bogus")]]),
     ("nextPageToken", .str "NEXT")]
  videos_list := fun _ _ => []
  search_list := fun _ _ => []

/-- A well-formed `search.list` video item for the given id. -/
def mkSearchItem (vid : String) : JVal :=
  .obj [("id", .obj [("videoId", .str vid)])]

/-- Test backend for the search_api strategy: a resolvable channel, a
three-item search page carrying a continuation token, and two records from
the batch lookup. -/
def searchTruncClient : Client where
  channels_list := fun _ _ =>
    [("items", .arr [.obj [("id", .str "UC_x"),
      ("snippet", .obj [("title", .str "T"), ("customUrl", .str "@Handle")])]])]
  playlist_items_list := fun _ _ => []
  videos_list := fun _ _ =>
    [("items", .arr [.obj [("id", .str "v1")], .obj [("id", .str "v2")]])]
  search_list := fun _ _ =>
    [("items", .arr [mkSearchItem "v1", mkSearchItem "v2", mkSearchItem "v3"]),
     ("nextPageToken", .str "NEXT")]

/-!
## Theorems

Everything below this point is sanity checks, helper lemmas, and the claim
theorems; all definitions of the embedding appear above.
-/

example : parse_channel_ref "@handle".toList =
    .ok ⟨.handle, "handle".toList, "@handle".toList⟩ := by rfl

example : parse_channel_ref "Acme Inc".toList =
    .ok ⟨.query, "Acme Inc".toList, "Acme Inc".toList⟩ := by rfl

example : parse_channel_ref "https://www.youtube.com/channel/UCabc".toList =
    .ok ⟨.channel_id, "UCabc".toList, "https://www.youtube.com/channel/UCabc".toList⟩ := by rfl

example : parse_channel_ref "youtube.com/c/Custom".toList =
    .ok ⟨.custom_url, "Custom".toList, "youtube.com/c/Custom".toList⟩ := by rfl

example : parse_channel_ref "UC0123456789abcd".toList =
    .ok ⟨.channel_id, "UC0123456789abcd".toList, "UC0123456789abcd".toList⟩ := by rfl

example : parse_channel_ref "@a/b".toList =
    .error (.parseError "Handle contains invalid URL separator characters") := by rfl

example : parse_channel_ref "   ".toList =
    .error (.parseError "Channel reference cannot be empty") := by rfl

example : estimate_channel_videos_quota .uploads_playlist 120 ⟨200, 10, 1000⟩ true =
    .ok ⟨6, .uploads_playlist, []⟩ := by rfl

example : estimate_channel_videos_quota .uploads_playlist 1000 ⟨50, 10, 1000⟩ false =
    .ok ⟨1, .uploads_playlist, ["requested_max_videos truncated to budget.max_videos"]⟩ := by
  rfl

theorem pyFloorDiv50_mono {a b : Int} (h : a ≤ b) :
    pyFloorDiv (a + 49) 50 ≤ pyFloorDiv (b + 49) 50 := by
  unfold pyFloorDiv
  rw [Int.fdiv_eq_ediv _ (by norm_num), Int.fdiv_eq_ediv _ (by norm_num)]
  exact Int.ediv_le_ediv (by norm_num) (by omega)

/-- C3: the quota estimator for strategy `search_api` caps the effective item
count at 500 independently of the budget, records a note when the cap
triggers, recomputes pages from the capped value (also capped at
`budget.max_pages`) and charges 100 units per page: at
`requestedMaxItems = 10000` and budget `{10000, 100, 10000}` with details off
it returns exactly 1000 estimated units together with the capped-to-500
note. -/
theorem quota_search_api_cap_example :
    ∃ e : QuotaEstimate,
      estimate_channel_videos_quota .search_api 10000 ⟨10000, 100, 10000⟩ false = .ok e
        ∧ e.estimated_units = 1000
        ∧ "search_api is capped to 500 videos by API behavior" ∈ e.notes := by
  refine ⟨⟨1000, .search_api, ["pages truncated to budget.max_pages",
    "search_api is capped to 500 videos by API behavior"]⟩, by rfl, by rfl, by decide⟩

theorem quota_units_mono (strategy : OrderStrategy) (budget : QuotaBudget) (d : Bool)
    {a b : Int} (hab : a ≤ b) :
    quota_units strategy a budget d ≤ quota_units strategy b budget d := by
  have hmv : min a budget.max_videos ≤ min b budget.max_videos := min_le_min hab le_rfl
  have hfd := pyFloorDiv50_mono hmv
  have hcap : min (min a budget.max_videos) 500 ≤ min (min b budget.max_videos) 500 :=
    min_le_min hmv le_rfl
  have hfdc := pyFloorDiv50_mono hcap
  unfold quota_units
  cases strategy <;> simp only [] <;>
    · generalize pyFloorDiv (min a budget.max_videos + 49) 50 = pa at hfd ⊢
      generalize pyFloorDiv (min b budget.max_videos + 49) 50 = pb at hfd ⊢
      generalize pyFloorDiv (min (min a budget.max_videos) 500 + 49) 50 = ca at hfdc ⊢
      generalize pyFloorDiv (min (min b budget.max_videos) 500 + 49) 50 = cb at hfdc ⊢
      rcases Bool.eq_false_or_eq_true d with hd | hd <;> subst hd <;> simp <;> omega

theorem estimate_ok_units (strategy : OrderStrategy) (budget : QuotaBudget) (d : Bool)
    (r : Int) (e : QuotaEstimate)
    (he : estimate_channel_videos_quota strategy r budget d = .ok e) :
    e.estimated_units = quota_units strategy r budget d := by
  unfold estimate_channel_videos_quota at he
  split at he
  · cases he
  · split at he
    · cases he
    · cases he
      rfl

/-- C5: for a fixed strategy, budget and details flag, the estimated units
are monotonically non-decreasing in the requested item count, whenever both
estimates succeed. -/
theorem estimate_units_monotone (strategy : OrderStrategy) (budget : QuotaBudget)
    (d : Bool) (a b : Int) (_ha : 0 < a) (hab : a ≤ b) (ea eb : QuotaEstimate)
    (hea : estimate_channel_videos_quota strategy a budget d = .ok ea)
    (heb : estimate_channel_videos_quota strategy b budget d = .ok eb) :
    ea.estimated_units ≤ eb.estimated_units := by
  rw [estimate_ok_units strategy budget d a ea hea,
    estimate_ok_units strategy budget d b eb heb]
  exact quota_units_mono strategy budget d hab

/-- Witness for `estimate_units_monotone` at strategy `uploads_playlist`,
requested counts 50 and 100, default budget, no details. -/
theorem estimate_units_monotone_witness :
    estimate_channel_videos_quota .uploads_playlist 50 ⟨200, 10, 1000⟩ false =
      .ok ⟨1, .uploads_playlist, []⟩
    ∧ estimate_channel_videos_quota .uploads_playlist 100 ⟨200, 10, 1000⟩ false =
      .ok ⟨2, .uploads_playlist, []⟩
    ∧ (1 : Int) ≤ 2 := by
  refine ⟨by rfl, by rfl, ?_⟩
  exact estimate_units_monotone .uploads_playlist ⟨200, 10, 1000⟩ false 50 100 (by norm_num)
    (by norm_num) ⟨1, .uploads_playlist, []⟩ ⟨2, .uploads_playlist, []⟩ (by rfl) (by rfl)

/-! ### Identifier extraction (C7) -/

theorem extractVidGo_none (its : List JVal) :
    ∀ out : List String, extractVidGo its none out = out ++ dedupFrom out (goodPlaylistIds its) := by
  induction its with
  | nil => intro out; simp [extractVidGo, goodPlaylistIds, dedupFrom]
  | cons it rest ih =>
    intro out
    rw [extractVidGo]
    simp only [limitReached]
    rw [if_neg Bool.false_ne_true]
    cases h : playlistItemVid it with
    | none => dsimp only; rw [ih out]; simp [goodPlaylistIds, h]
    | some vid =>
      dsimp only
      by_cases hc : out.contains vid
      · rw [if_pos hc, ih out]
        simp only [goodPlaylistIds, List.filterMap_cons, h]
        rw [dedupFrom, if_pos hc]
      · rw [if_neg hc, ih (out ++ [vid])]
        simp only [goodPlaylistIds, List.filterMap_cons, h]
        rw [dedupFrom, if_neg hc]
        simp [List.append_assoc]

theorem extractVidGo_some (its : List JVal) (l : Int) :
    ∀ out : List String,
      extractVidGo its (some l) out
        = out ++ (dedupFrom out (goodPlaylistIds its)).take (l - out.length).toNat := by
  induction its with
  | nil => intro out; simp [extractVidGo, goodPlaylistIds, dedupFrom]
  | cons it rest ih =>
    intro out
    rw [extractVidGo]
    simp only [limitReached]
    by_cases hl : (out.length : Int) ≥ l
    · rw [if_pos (by simpa using hl)]
      have h0 : (l - out.length).toNat = 0 := by omega
      simp [h0]
    · rw [if_neg (by simpa using hl)]
      cases h : playlistItemVid it with
      | none => dsimp only; rw [ih out]; simp [goodPlaylistIds, h]
      | some vid =>
        dsimp only
        by_cases hc : out.contains vid
        · rw [if_pos hc, ih out]
          simp only [goodPlaylistIds, List.filterMap_cons, h]
          rw [dedupFrom, if_pos hc]
        · rw [if_neg hc, ih (out ++ [vid])]
          simp only [goodPlaylistIds, List.filterMap_cons, h]
          rw [dedupFrom, if_neg hc]
          simp only [List.length_append, List.length_cons, List.length_nil, Nat.zero_add]
          have harith : (l - out.length).toNat = (l - (out.length + 1)).toNat + 1 := by omega
          rw [harith, List.take_succ_cons]
          have hcast : ((out.length + 1 : Nat) : Int) = (out.length : Int) + 1 := by push_cast; ring
          rw [hcast]
          simp [List.append_assoc]

theorem extractSearchGo_take (its : List JVal) (l : Int) :
    ∀ out : List String,
      extractSearchGo its l out = out ++ (goodSearchIds its).take (l - out.length).toNat := by
  induction its with
  | nil => intro out; simp [extractSearchGo, goodSearchIds]
  | cons it rest ih =>
    intro out
    rw [extractSearchGo]
    by_cases hl : (out.length : Int) ≥ l
    · rw [if_pos (by simpa using hl)]
      have h0 : (l - out.length).toNat = 0 := by omega
      simp [h0]
    · rw [if_neg (by simpa using hl)]
      cases h : searchItemVid it with
      | none => dsimp only; rw [ih out]; simp [goodSearchIds, h]
      | some vid =>
        dsimp only
        rw [ih (out ++ [vid])]
        simp only [goodSearchIds, List.filterMap_cons, h]
        simp only [List.length_append, List.length_cons, List.length_nil, Nat.zero_add]
        have harith : (l - out.length).toNat = (l - (out.length + 1)).toNat + 1 := by omega
        rw [harith, List.take_succ_cons]
        have hcast : ((out.length + 1 : Nat) : Int) = (out.length : Int) + 1 := by push_cast; ring
        rw [hcast]
        simp [List.append_assoc]

theorem dedupFrom_nodup (l : List String) :
    ∀ seen : List String, (dedupFrom seen l).Nodup ∧ ∀ x ∈ dedupFrom seen l, ¬ x ∈ seen := by
  induction l with
  | nil => intro seen; simp [dedupFrom]
  | cons x xs ih =>
    intro seen
    rw [dedupFrom]
    by_cases hc : seen.contains x
    · rw [if_pos hc]; exact ih seen
    · rw [if_neg hc]
      obtain ⟨hnd, hmem⟩ := ih (seen ++ [x])
      have hx_not_seen : ¬ x ∈ seen := by simpa using hc
      constructor
      · refine List.nodup_cons.mpr ⟨fun hx => ?_, hnd⟩
        have := hmem x hx
        simp at this
      · intro y hy
        rcases List.mem_cons.mp hy with h | h
        · subst h; exact hx_not_seen
        · have := hmem y h
          simp only [List.mem_append, List.mem_singleton] at this
          exact fun hys => this (Or.inl hys)

theorem dedupKeepFirst_nodup (l : List String) : (dedupKeepFirst l).Nodup :=
  (dedupFrom_nodup l []).1

/-- C7 (amended): identifier extraction scans the items in order, skips
malformed entries, and stops at the optional limit for all strategies, but
only the playlist extraction (uploads_playlist and local_sort) deduplicates
while preserving first-seen order; the search extraction keeps duplicates:
playlist extraction equals first-occurrence deduplication of the
well-formed identifiers (truncated to the limit) and is always duplicate
free, while search extraction equals the plain well-formed identifier
stream truncated to the limit. -/
theorem extraction_rule_characterization :
    (∀ its : List JVal, extract_video_ids (.arr its) none = dedupKeepFirst (goodPlaylistIds its))
    ∧ (∀ (its : List JVal) (l : Int),
        extract_video_ids (.arr its) (some l)
          = (dedupKeepFirst (goodPlaylistIds its)).take l.toNat)
    ∧ (∀ (its : List JVal) (lim : Option Int), (extract_video_ids (.arr its) lim).Nodup)
    ∧ (∀ (its : List JVal) (l : Int),
        extract_search_video_ids (.arr its) l = (goodSearchIds its).take l.toNat) := by
  have hnone : ∀ its : List JVal,
      extract_video_ids (.arr its) none = dedupKeepFirst (goodPlaylistIds its) := by
    intro its
    rw [extract_video_ids, extractVidGo_none]
    simp [dedupKeepFirst]
  have hsome : ∀ (its : List JVal) (l : Int),
      extract_video_ids (.arr its) (some l)
        = (dedupKeepFirst (goodPlaylistIds its)).take l.toNat := by
    intro its l
    rw [extract_video_ids, extractVidGo_some]
    simp [dedupKeepFirst]
  refine ⟨hnone, hsome, ?_, ?_⟩
  · intro its lim
    cases lim with
    | none => rw [hnone]; exact dedupKeepFirst_nodup _
    | some l => rw [hsome]; exact (dedupKeepFirst_nodup _).sublist (List.take_sublist _ _)
  · intro its l
    rw [extract_search_video_ids, extractSearchGo_take]
    simp

/-! ### Reference parsing (C8, C9) -/

theorem dropWhile_append_last (p : Char → Bool) (l : List Char) (a : Char) (ha : p a = false) :
    (l ++ [a]).dropWhile p = l.dropWhile p ++ [a] := by
  induction l with
  | nil => simp [List.dropWhile_cons, ha]
  | cons x xs ih =>
    by_cases hx : p x
    · simp [List.dropWhile_cons, hx, ih]
    · simp [List.dropWhile_cons, hx]

theorem pyStrip_head (s : PyStr) (c : Char) (hc : isPySpace c = false)
    (h : s.head? = some c) : (pyStrip s).head? = some c := by
  cases s with
  | nil => simp at h
  | cons x xs =>
    simp only [List.head?_cons, Option.some.injEq] at h
    subst h
    unfold pyStrip
    rw [List.dropWhile_cons, if_neg (by simp [hc])]
    have hrev : (x :: xs).reverse = xs.reverse ++ [x] := by simp
    rw [hrev, dropWhile_append_last _ _ _ hc]
    simp

theorem parse_at_reduction (s : PyStr) (h : (pyStrip s).head? = some '@') :
    parse_channel_ref s
      = (if pyStrip ((pyStrip s).drop 1) = []
         then .error (.parseError "Handle cannot be empty")
         else if hasSeparator (pyStrip ((pyStrip s).drop 1))
         then .error (.parseError "Handle contains invalid URL separator characters")
         else .ok ⟨.handle, pyStrip ((pyStrip s).drop 1), pyStrip s⟩) := by
  have hne : pyStrip s ≠ [] := by
    intro he
    rw [he] at h
    simp at h
  unfold parse_channel_ref normalize_raw
  dsimp only
  rw [if_neg hne]
  dsimp only
  rw [if_pos h]

/-- C8: for every input whose first character is `@`, parsing yields a
handle reference whose value is the input without the leading `@` and with
surrounding whitespace trimmed (and whose raw is the trimmed input); it
fails with a parse error exactly when that value is empty or contains one
of `/`, `?`, `#`. -/
theorem parse_handle_inputs (s : PyStr) (h : s.head? = some '@') :
    (pyStrip ((pyStrip s).drop 1) ≠ [] →
      hasSeparator (pyStrip ((pyStrip s).drop 1)) = false →
      parse_channel_ref s = .ok ⟨.handle, pyStrip ((pyStrip s).drop 1), pyStrip s⟩)
    ∧ ((pyStrip ((pyStrip s).drop 1) = [] ∨ hasSeparator (pyStrip ((pyStrip s).drop 1)) = true) →
      ∃ m, parse_channel_ref s = .error (.parseError m)) := by
  have hhead : (pyStrip s).head? = some '@' := pyStrip_head s '@' (by decide) h
  rw [parse_at_reduction s hhead]
  constructor
  · intro h1 h2
    rw [if_neg h1, if_neg (by rw [h2]; exact Bool.false_ne_true)]
  · intro h12
    by_cases h1 : pyStrip ((pyStrip s).drop 1) = []
    · rw [if_pos h1]
      exact ⟨_, rfl⟩
    · rcases h12 with h | h2
      · exact absurd h h1
      · rw [if_neg h1, if_pos h2]
        exact ⟨_, rfl⟩

/-- Witness for `parse_handle_inputs` at the inputs "@handle" and "@a/b". -/
theorem parse_handle_inputs_witness :
    ("@handle".toList.head? = some '@'
      ∧ parse_channel_ref "@handle".toList
          = .ok ⟨.handle, "handle".toList, "@handle".toList⟩)
    ∧ ("@a/b".toList.head? = some '@'
      ∧ ∃ m, parse_channel_ref "@a/b".toList = .error (.parseError m)) :=
  ⟨⟨by decide, (parse_handle_inputs "@handle".toList (by decide)).1 (by decide) (by decide)⟩,
   ⟨by decide, (parse_handle_inputs "@a/b".toList (by decide)).2 (Or.inr (by decide))⟩⟩

theorem url_segment_ref_invariant (kind : ChannelRefKind) (seg : PyStr)
    (emptyMsg label : String) (raw : PyStr) (ref : ChannelRef)
    (h : url_segment_ref kind seg emptyMsg label raw = .ok (some ref)) :
    ref.value ≠ [] ∧ ref.raw = raw := by
  unfold url_segment_ref at h
  split at h
  · cases h
  · split at h
    · cases h
    · injection h with h1
      injection h1 with h2
      subst h2
      exact ⟨by assumption, rfl⟩

theorem try_parse_ref_invariant (raw : PyStr) (hr : raw ≠ []) (ref : ChannelRef)
    (h : try_parse_youtube_url raw = .ok (some ref)) : ref.value ≠ [] ∧ ref.raw = raw := by
  unfold try_parse_youtube_url at h
  dsimp only at h
  repeat' split at h
  all_goals first
    | exact url_segment_ref_invariant _ _ _ _ _ _ h
    | (injection h with h1; injection h1 with h2; subst h2; exact ⟨hr, rfl⟩)
    | cases h

/-- C9: whenever parsing returns a reference (of any kind, including
`query`), its value is a non-empty string and its raw is the
whitespace-trimmed original input. -/
theorem parse_ref_invariant (s : PyStr) (ref : ChannelRef)
    (h : parse_channel_ref s = .ok ref) : ref.value ≠ [] ∧ ref.raw = pyStrip s := by
  unfold parse_channel_ref normalize_raw at h
  dsimp only at h
  by_cases hne : pyStrip s = []
  · rw [if_pos hne] at h
    cases h
  · rw [if_neg hne] at h
    dsimp only at h
    split at h
    · split at h
      · cases h
      · split at h
        · cases h
        · injection h with h1
          subst h1
          exact ⟨by assumption, rfl⟩
    · split at h
      · injection h with h1
        subst h1
        exact ⟨hne, rfl⟩
      · split at h
        all_goals first
          | (injection h with h1; subst h1; exact ⟨hne, rfl⟩)
          | (injection h with h1; subst h1;
             exact try_parse_ref_invariant _ hne _ (by assumption))
          | cases h

/-- Witness for `parse_ref_invariant` at the query-classified input
"Acme Inc". -/
theorem parse_ref_invariant_witness :
    parse_channel_ref "Acme Inc".toList = .ok ⟨.query, "Acme Inc".toList, "Acme Inc".toList⟩
    ∧ "Acme Inc".toList ≠ [] ∧ "Acme Inc".toList = pyStrip "Acme Inc".toList :=
  ⟨by rfl,
    (parse_ref_invariant "Acme Inc".toList ⟨.query, "Acme Inc".toList, "Acme Inc".toList⟩
      (by rfl)).1,
    by decide⟩

/-! ### Best-effort resolution (C1) -/

theorem dropWhile_head_not (p : Char → Bool) (l : List Char) (x : Char)
    (h : (l.dropWhile p).head? = some x) : p x = false := by
  induction l with
  | nil => simp at h
  | cons c cs ih =>
    rw [List.dropWhile_cons] at h
    by_cases hc : p c
    · rw [if_pos hc] at h
      exact ih h
    · rw [if_neg hc] at h
      simp only [List.head?_cons, Option.some.injEq] at h
      subst h
      simpa using hc

theorem dropWhile_of_head_not (p : Char → Bool) (l : List Char)
    (h : ∀ x, l.head? = some x → p x = false) : l.dropWhile p = l := by
  cases l with
  | nil => rfl
  | cons c cs => rw [List.dropWhile_cons, if_neg (by simp [h c rfl])]

theorem dropWhile_dropWhile (p : Char → Bool) (l : List Char) :
    (l.dropWhile p).dropWhile p = l.dropWhile p :=
  dropWhile_of_head_not p _ (fun x hx => dropWhile_head_not p l x hx)

theorem pyStrip_idem (s : PyStr) : pyStrip (pyStrip s) = pyStrip s := by
  have hBrev : (pyStrip s).reverse = (s.dropWhile isPySpace).reverse.dropWhile isPySpace := by
    unfold pyStrip
    simp
  have hhead : ∀ x, (pyStrip s).head? = some x → isPySpace x = false := by
    intro x hx
    have hsuffix : (s.dropWhile isPySpace).reverse.dropWhile isPySpace
        <:+ (s.dropWhile isPySpace).reverse := List.dropWhile_suffix _
    have hpre : pyStrip s <+: s.dropWhile isPySpace := by
      have h2 := List.reverse_prefix.mpr hsuffix
      rw [List.reverse_reverse] at h2
      exact h2
    obtain ⟨rest, hr⟩ := hpre
    cases hps : pyStrip s with
    | nil => rw [hps] at hx; simp at hx
    | cons b bs =>
      rw [hps] at hx hr
      simp only [List.head?_cons, Option.some.injEq] at hx
      refine dropWhile_head_not isPySpace s x ?_
      rw [← hr]
      simp [hx]
  have h1 : (pyStrip s).dropWhile isPySpace = pyStrip s := dropWhile_of_head_not _ _ hhead
  calc pyStrip (pyStrip s)
      = (((pyStrip s).dropWhile isPySpace).reverse.dropWhile isPySpace).reverse := rfl
    _ = ((pyStrip s).reverse.dropWhile isPySpace).reverse := by rw [h1]
    _ = (pyStrip s).reverse.reverse := by rw [hBrev, dropWhile_dropWhile, ← hBrev]
    _ = pyStrip s := by simp

theorem url_segment_ref_kind (kind : ChannelRefKind) (seg : PyStr) (emptyMsg label : String)
    (raw : PyStr) (ref : ChannelRef)
    (h : url_segment_ref kind seg emptyMsg label raw = .ok (some ref)) : ref.kind = kind := by
  unfold url_segment_ref at h
  split at h
  · cases h
  · split at h
    · cases h
    · injection h with h1
      injection h1 with h2
      subst h2
      rfl

theorem try_parse_query_value (raw : PyStr) (ref : ChannelRef)
    (h : try_parse_youtube_url raw = .ok (some ref)) (hk : ref.kind = .query) :
    ref.value = raw := by
  unfold try_parse_youtube_url at h
  dsimp only at h
  repeat' split at h
  all_goals first
    | (have hkk := url_segment_ref_kind _ _ _ _ _ _ h; rw [hk] at hkk; cases hkk)
    | (injection h with h1; injection h1 with h2; subst h2; rfl)
    | cases h

theorem parse_query_value (s : PyStr) (ref : ChannelRef)
    (h : parse_channel_ref s = .ok ref) (hk : ref.kind = .query) :
    ref.value = pyStrip s ∧ pyStrip s ≠ [] := by
  unfold parse_channel_ref normalize_raw at h
  dsimp only at h
  by_cases hne : pyStrip s = []
  · rw [if_pos hne] at h
    cases h
  · rw [if_neg hne] at h
    dsimp only at h
    split at h
    · split at h
      · cases h
      · split at h
        · cases h
        · injection h with h1
          subst h1
          simp at hk
    · split at h
      · injection h with h1
        subst h1
        simp at hk
      · split at h
        all_goals first
          | (injection h with h1; subst h1;
             exact ⟨try_parse_query_value _ _ (by assumption) hk, hne⟩)
          | (injection h with h1; subst h1; exact ⟨rfl, hne⟩)
          | cases h

theorem resolve_channel_query (client : Client) (s : PyStr) (v r : PyStr) (inc : Bool)
    (mode : ResolutionMode) (hparse : parse_channel_ref s = .ok ⟨.query, v, r⟩) :
    resolve_channel client s mode inc
      = (if mode = .strict
         then (.error (.resolutionError ("Ambiguous channel reference. "
            ++ "Provide @handle, channel URL (/channel/UC...), or /user/<username>.")), [])
         else resolve_best_effort_query client v inc) := by
  unfold resolve_channel
  rw [hparse]
  cases mode <;> rfl

theorem resolve_best_effort_query_run (client : Client) (q : PyStr) (inc : Bool)
    (hq : pyStrip q ≠ []) :
    resolve_best_effort_query client q inc
      = (match lookupJ (client.search_list "snippet" (bestEffortSearchParams q)) "items" with
         | .arr (i :: is) =>
           (.ok ⟨some "", none, none, none, ["best_effort_candidates_only"],
             (i :: is).filterMap searchItemCandidate⟩,
            [⟨.searchList, "snippet", bestEffortSearchParams q⟩])
         | _ =>
           (.error (.resolutionError "No channel candidates found"),
            [⟨.searchList, "snippet", bestEffortSearchParams q⟩])) := by
  unfold resolve_best_effort_query
  rw [if_neg hq]

/-- C1 (amended): for a reference classified as kind=query, strict mode
always fails with the ambiguity error before any backend call; best-effort
mode issues exactly one keyword search with type=channel and maxResults=5
and (a) when the response has a non-empty item list, never fails: it
returns empty id, the `best_effort_candidates_only` warning, and candidates
built from the well-formed items (possibly zero of them), never
auto-selecting; but (b) when the response item list is missing, not a list,
or empty, it fails with a resolution error rather than returning an empty
candidate list. -/
theorem resolve_query_best_effort (client : Client) (s : PyStr) (ref : ChannelRef)
    (hparse : parse_channel_ref s = .ok ref) (hk : ref.kind = .query) (inc : Bool) :
    (resolve_channel client s .strict inc
      = (.error (.resolutionError ("Ambiguous channel reference. "
          ++ "Provide @handle, channel URL (/channel/UC...), or /user/<username>.")), []))
    ∧ (∀ i is,
        lookupJ (client.search_list "snippet" (bestEffortSearchParams ref.value)) "items"
          = .arr (i :: is) →
        resolve_channel client s .best_effort inc
          = (.ok ⟨some "", none, none, none, ["best_effort_candidates_only"],
              (i :: is).filterMap searchItemCandidate⟩,
             [⟨.searchList, "snippet", bestEffortSearchParams ref.value⟩]))
    ∧ (¬ (∃ i is,
        lookupJ (client.search_list "snippet" (bestEffortSearchParams ref.value)) "items"
          = .arr (i :: is)) →
        resolve_channel client s .best_effort inc
          = (.error (.resolutionError "No channel candidates found"),
             [⟨.searchList, "snippet", bestEffortSearchParams ref.value⟩])) := by
  obtain ⟨k, v, r⟩ := ref
  dsimp only at hk
  subst hk
  obtain ⟨hv, hne⟩ := parse_query_value s ⟨.query, v, r⟩ hparse rfl
  dsimp only at hv
  have hstrip : pyStrip v ≠ [] := by
    rw [hv, pyStrip_idem]
    exact hne
  refine ⟨?_, ?_, ?_⟩
  · rw [resolve_channel_query client s v r inc .strict hparse, if_pos rfl]
  · intro i is hitems
    rw [resolve_channel_query client s v r inc .best_effort hparse]
    rw [if_neg (by decide), resolve_best_effort_query_run client v inc hstrip]
    dsimp only at hitems ⊢
    rw [hitems]
  · intro hno
    rw [resolve_channel_query client s v r inc .best_effort hparse]
    rw [if_neg (by decide), resolve_best_effort_query_run client v inc hstrip]
    dsimp only at hno ⊢
    cases hli : lookupJ (client.search_list "snippet" (bestEffortSearchParams v)) "items" with
    | arr xs =>
      cases xs with
      | nil => rfl
      | cons hd tl => exact absurd ⟨hd, tl, hli⟩ hno
    | null => rfl
    | str a => rfl
    | int a => rfl
    | obj a => rfl

/-- C1 counterexample: with a backend whose candidate search returns an
empty item list, best-effort resolution of the non-empty query "Acme Inc"
fails (raises a resolution error) instead of returning an empty candidate
list. -/
theorem resolve_query_best_effort_cex :
    resolve_channel emptySearchClient "Acme Inc".toList .best_effort true
      = (.error (.resolutionError "No channel candidates found"),
         [⟨.searchList, "snippet", bestEffortSearchParams "Acme Inc".toList⟩]) := by rfl

/-- Witness for `resolve_query_best_effort` at the query "Acme Inc" and a
backend returning one well-formed candidate item. -/
theorem resolve_query_best_effort_witness :
    parse_channel_ref "Acme Inc".toList
      = .ok ⟨.query, "Acme Inc".toList, "Acme Inc".toList⟩
    ∧ resolve_channel oneCandidateClient "Acme Inc".toList .strict true
      = (.error (.resolutionError ("Ambiguous channel reference. "
          ++ "Provide @handle, channel URL (/channel/UC...), or /user/<username>.")), []) := by
  refine ⟨by rfl, ?_⟩
  exact (resolve_query_best_effort oneCandidateClient "Acme Inc".toList
    ⟨.query, "Acme Inc".toList, "Acme Inc".toList⟩ (by rfl) (by rfl) true).1

/-! ### Uploads-playlist pipeline (C4, C10) and the C7 counterexample -/

/-- C7 counterexample: the search-strategy extraction does not deduplicate:
on a response repeating the same video id it returns the id twice. -/
theorem search_extraction_no_dedup_cex :
    extract_search_video_ids (.arr [dupSearchItem, dupSearchItem]) 5 = ["v1", "v1"]
    ∧ ¬ (extract_search_video_ids (.arr [dupSearchItem, dupSearchItem]) 5).Nodup := by
  constructor
  · rfl
  · intro h
    rw [show extract_search_video_ids (.arr [dupSearchItem, dupSearchItem]) 5
      = ["v1", "v1"] from rfl] at h
    simp at h

theorem filter_videos_all (vs : List JVal) : filter_videos vs true true = .ok vs := by
  induction vs with
  | nil => rfl
  | cons v vs ih => simp [filter_videos, ih]

theorem list_channel_videos_page_run (client : Client) (channel_ref : PyStr)
    (max_videos : Int) (page_token : Option String) (incS incL : Bool)
    (parts_level : PartsLevel) (budget : QuotaBudget) (qe : QuotaEstimate)
    (rc : ResolvedChannel) (cs : List Call) (u : String)
    (hest : estimate_channel_videos_quota .uploads_playlist max_videos budget true = .ok qe)
    (hres : resolve_channel client channel_ref .strict true = (.ok rc, cs))
    (hu : rc.uploads_playlist_id = some u) (hne : u ≠ "") :
    list_channel_videos_page client channel_ref max_videos page_token incS incL
        parts_level budget
      = uploadsAfterResolve client max_videos page_token incS incL parts_level qe u cs := by
  unfold list_channel_videos_page
  rw [hest]
  dsimp only
  rw [hres]
  dsimp only
  rw [hu]
  dsimp only
  rw [if_neg hne]

theorem resolve_channels_list_call_ops (client : Client) (ps : List (String × String))
    (inc : Bool) (res : Except Err ResolvedChannel) (cs : List Call)
    (h : resolve_channels_list client ps inc = (res, cs)) :
    ∀ c ∈ cs, c.op = .channelsList := by
  unfold resolve_channels_list at h
  dsimp only at h
  split at h <;>
    (injection h with h1 h2; subst h2;
     intro c hc; simp only [List.mem_singleton] at hc; subst hc; rfl)

theorem resolve_best_effort_query_call_ops (client : Client) (q : PyStr) (inc : Bool)
    (res : Except Err ResolvedChannel) (cs : List Call)
    (h : resolve_best_effort_query client q inc = (res, cs)) :
    ∀ c ∈ cs, c.op = .searchList := by
  unfold resolve_best_effort_query at h
  split at h
  · injection h with h1 h2
    subst h2
    simp
  · dsimp only at h
    split at h <;>
      (injection h with h1 h2; subst h2;
       intro c hc; simp only [List.mem_singleton] at hc; subst hc; rfl)

theorem resolve_channel_call_ops (client : Client) (s : PyStr) (mode : ResolutionMode)
    (inc : Bool) (res : Except Err ResolvedChannel) (cs : List Call)
    (h : resolve_channel client s mode inc = (res, cs)) :
    ∀ c ∈ cs, c.op = .channelsList ∨ c.op = .searchList := by
  unfold resolve_channel at h
  split at h
  · injection h with h1 h2
    subst h2
    simp
  · dsimp only at h
    split at h
    · injection h with h1 h2
      subst h2
      simp
    · split at h
      · split at h
        · injection h with h1 h2
          subst h2
          simp
        · intro c hc
          exact Or.inr (resolve_best_effort_query_call_ops _ _ _ _ _ h c hc)
      · intro c hc
        exact Or.inl (resolve_channels_list_call_ops _ _ _ _ _ h c hc)
      · intro c hc
        exact Or.inl (resolve_channels_list_call_ops _ _ _ _ _ h c hc)
      · intro c hc
        exact Or.inl (resolve_channels_list_call_ops _ _ _ _ _ h c hc)
      · injection h with h1 h2
        subst h2
        simp

/-- C10: in the uploads_playlist strategy, when zero identifiers are
extracted from the collection-items page, the pipeline returns an empty
page with no continuation token and truncated=false, and the batch
detail-fetch (`videos.list`) call is never issued — even when the backend
response carried a continuation token. -/
theorem uploads_empty_extraction (client : Client) (channel_ref : PyStr)
    (max_videos : Int) (page_token : Option String) (incS incL : Bool)
    (parts_level : PartsLevel) (budget : QuotaBudget) (qe : QuotaEstimate)
    (rc : ResolvedChannel) (cs : List Call) (u : String)
    (hest : estimate_channel_videos_quota .uploads_playlist max_videos budget true = .ok qe)
    (hres : resolve_channel client channel_ref .strict true = (.ok rc, cs))
    (hu : rc.uploads_playlist_id = some u) (hne : u ≠ "")
    (hempty : extract_video_ids (lookupJ (client.playlist_items_list "snippet,contentDetails"
      (uploads_playlist_params u page_token)) "items") none = []) :
    list_channel_videos_page client channel_ref max_videos page_token incS incL
        parts_level budget
      = (.ok ⟨[], none, qe, false, 0⟩,
         cs ++ [⟨.playlistItemsList, "snippet,contentDetails",
           uploads_playlist_params u page_token⟩])
    ∧ ∀ c ∈ cs ++ [⟨.playlistItemsList, "snippet,contentDetails",
        uploads_playlist_params u page_token⟩], c.op ≠ ApiOp.videosList := by
  constructor
  · rw [list_channel_videos_page_run client channel_ref max_videos page_token incS incL
      parts_level budget qe rc cs u hest hres hu hne]
    unfold uploadsAfterResolve
    dsimp only
    rw [hempty]
    have hvid : (if max_videos < (([] : List String).length : Int)
        then ([] : List String).take max_videos.toNat else ([] : List String)) = [] := by
      split <;> simp
    rw [hvid]
  · intro c hc
    rcases List.mem_append.mp hc with h | h
    · rcases resolve_channel_call_ops client channel_ref .strict true (.ok rc) cs hres c h
        with h1 | h1 <;> simp [h1]
    · simp only [List.mem_singleton] at h
      subst h
      simp

/-- Witness for `uploads_empty_extraction`: a backend whose collection page
contains no well-formed items but does carry a continuation token. -/
theorem uploads_empty_extraction_witness :
    extract_video_ids (lookupJ (emptyPageClient.playlist_items_list "snippet,contentDetails"
      (uploads_playlist_params "UU_x" none)) "items") none = []
    ∧ list_channel_videos_page emptyPageClient "@Handle".toList 2 none true true .basic
        ⟨200, 10, 1000⟩
      = (.ok ⟨[], none, ⟨2, .uploads_playlist, []⟩, false, 0⟩,
         [⟨.channelsList, "snippet,id,contentDetails", [("forHandle", "@Handle")]⟩,
          ⟨.playlistItemsList, "snippet,contentDetails",
            uploads_playlist_params "UU_x" none⟩]) := by
  refine ⟨by rfl, ?_⟩
  exact (uploads_empty_extraction emptyPageClient "@Handle".toList 2 none true true .basic
    ⟨200, 10, 1000⟩ ⟨2, .uploads_playlist, []⟩
    ⟨some "UC_x", some "T", some "@Handle", some "UU_x", [], []⟩
    [⟨.channelsList, "snippet,id,contentDetails", [("forHandle", "@Handle")]⟩] "UU_x"
    (by rfl) (by rfl) (by rfl) (by decide) (by rfl)).1

/-- C4: for the uploads_playlist strategy, when the collection-items page
yields exactly 3 extracted identifiers and the caller passes maxItems=2
(with shorts and live included and the batch lookup returning full records
for the two kept identifiers), the returned page has exactly those 2 items,
truncated=true, and the backend's continuation token passed through
unchanged. -/
theorem uploads_three_ids_max_two (client : Client) (channel_ref : PyStr)
    (page_token : Option String) (parts_level : PartsLevel) (budget : QuotaBudget)
    (qe : QuotaEstimate) (rc : ResolvedChannel) (cs : List Call) (u : String)
    (i1 i2 i3 : String) (r1 r2 : JVal) (tok : String)
    (hest : estimate_channel_videos_quota .uploads_playlist 2 budget true = .ok qe)
    (hres : resolve_channel client channel_ref .strict true = (.ok rc, cs))
    (hu : rc.uploads_playlist_id = some u) (hne : u ≠ "")
    (hids : extract_video_ids (lookupJ (client.playlist_items_list "snippet,contentDetails"
      (uploads_playlist_params u page_token)) "items") none = [i1, i2, i3])
    (hvids : lookupJ (client.videos_list (detailPart parts_level)
      [("id", String.intercalate "," [i1, i2])]) "items" = .arr [r1, r2])
    (htok : lookupJ (client.playlist_items_list "snippet,contentDetails"
      (uploads_playlist_params u page_token)) "nextPageToken" = .str tok)
    (htokne : tok ≠ "") :
    list_channel_videos_page client channel_ref 2 page_token true true parts_level budget
      = (.ok ⟨[r1, r2], some tok, qe, true, 2⟩,
         cs ++ [⟨.playlistItemsList, "snippet,contentDetails",
            uploads_playlist_params u page_token⟩,
           ⟨.videosList, detailPart parts_level,
            [("id", String.intercalate "," [i1, i2])]⟩]) := by
  rw [list_channel_videos_page_run client channel_ref 2 page_token true true
    parts_level budget qe rc cs u hest hres hu hne]
  unfold uploadsAfterResolve
  dsimp only
  rw [hids]
  have hvid : (if (2 : Int) < (([i1, i2, i3] : List String).length : Int)
      then ([i1, i2, i3] : List String).take (2 : Int).toNat else [i1, i2, i3])
      = [i1, i2] := by
    rw [if_pos (by simp)]
    rfl
  rw [hvid]
  dsimp only
  unfold respItems
  rw [hvids]
  dsimp only
  rw [filter_videos_all]
  dsimp only
  unfold nextTokenOf
  rw [htok]
  dsimp only
  rw [if_neg htokne]
  simp [List.append_assoc]

/-- Witness for `uploads_three_ids_max_two` at the inventory test backend. -/
theorem uploads_three_ids_max_two_witness :
    extract_video_ids (lookupJ (inventoryClient.playlist_items_list "snippet,contentDetails"
      (uploads_playlist_params "UU_x" none)) "items") none = ["v1", "v2", "v3"]
    ∧ list_channel_videos_page inventoryClient "@Handle".toList 2 none true true .basic
        ⟨200, 10, 1000⟩
      = (.ok ⟨[.obj [("id", .str "v1")], .obj [("id", .str "v2")]], some "NEXT",
          ⟨2, .uploads_playlist, []⟩, true, 2⟩,
         [⟨.channelsList, "snippet,id,contentDetails", [("forHandle", "@Handle")]⟩,
          ⟨.playlistItemsList, "snippet,contentDetails", uploads_playlist_params "UU_x" none⟩,
          ⟨.videosList, detailPart .basic, [("id", String.intercalate "," ["v1", "v2"])]⟩]) := by
  refine ⟨by rfl, ?_⟩
  exact uploads_three_ids_max_two inventoryClient "@Handle".toList none .basic
    ⟨200, 10, 1000⟩ ⟨2, .uploads_playlist, []⟩
    ⟨some "UC_x", some "T", some "@Handle", some "UU_x", [], []⟩
    [⟨.channelsList, "snippet,id,contentDetails", [("forHandle", "@Handle")]⟩] "UU_x"
    "v1" "v2" "v3" (.obj [("id", .str "v1")]) (.obj [("id", .str "v2")]) "NEXT"
    (by rfl) (by rfl) (by rfl) (by decide) (by rfl) (by rfl) (by rfl) (by decide)

/-! ### Validation errors (C6) -/

/-- C6: each validation error — a truthy continuation token supplied to the
non-paginated local_sort strategy, an order key outside date/viewCount for
search_api, and a blank required query for channel keyword search — is
raised before any backend call: for every backend the pipeline returns the
validation `ValueError` with an empty call trace. -/
theorem validation_before_backend :
    (∀ (client : Client) (channel_ref : PyStr) (order_by : String) (max_videos : Int)
       (t : String) (incS incL : Bool) (parts_level : PartsLevel) (budget : QuotaBudget),
       t ≠ "" →
       list_channel_videos_local_sorted client channel_ref order_by max_videos (some t)
           incS incL parts_level budget
         = (.error (.valueError "page_token is not supported for local_sort"), []))
    ∧ (∀ (client : Client) (channel_ref : PyStr) (order_by : String) (max_videos : Int)
       (page_token : Option String) (incS incL : Bool) (parts_level : PartsLevel)
       (budget : QuotaBudget),
       order_by ≠ "date" → order_by ≠ "viewCount" →
       list_channel_videos_search_api client channel_ref order_by max_videos page_token
           incS incL parts_level budget
         = (.error (.valueError
             "search_api supports only order_by in \x7b\x27date\x27,\x27viewCount\x27\x7d"), []))
    ∧ (∀ (client : Client) (channel_ref : PyStr) (query : String) (page_token : Option String)
       (max_videos : Int) (incS incL : Bool) (parts_level : PartsLevel) (order : String)
       (budget : QuotaBudget),
       pyStripS query = "" →
       search_channel_videos_page client channel_ref query page_token max_videos incS incL
           parts_level order budget
         = (.error (.valueError "query is required"), [])) := by
  refine ⟨?_, ?_, ?_⟩
  · intro client channel_ref order_by max_videos t incS incL parts_level budget ht
    unfold list_channel_videos_local_sorted
    rw [if_pos (by simp [truthyOpt, ht])]
  · intro client channel_ref order_by max_videos page_token incS incL parts_level budget hd hv
    unfold list_channel_videos_search_api
    rw [if_pos ⟨hd, hv⟩]
  · intro client channel_ref query page_token max_videos incS incL parts_level order budget hq
    unfold search_channel_videos_page
    rw [if_pos (Or.inr hq)]

/-- Witness for `validation_before_backend` at concrete invalid inputs. -/
theorem validation_before_backend_witness :
    ("TOK" : String) ≠ ""
    ∧ list_channel_videos_local_sorted emptySearchClient "@Handle".toList "date" 5 (some "TOK")
        true true .basic ⟨200, 10, 1000⟩
      = (.error (.valueError "page_token is not supported for local_sort"), [])
    ∧ list_channel_videos_search_api emptySearchClient "@Handle".toList "relevance" 5 none
        true true .basic ⟨200, 10, 1000⟩
      = (.error (.valueError
          "search_api supports only order_by in \x7b\x27date\x27,\x27viewCount\x27\x7d"), [])
    ∧ search_channel_videos_page emptySearchClient "@Handle".toList "   " none 5 true true
        .basic "date" ⟨200, 10, 1000⟩
      = (.error (.valueError "query is required"), []) := by
  refine ⟨by decide, ?_, ?_, ?_⟩
  · exact validation_before_backend.1 emptySearchClient "@Handle".toList "date" 5 "TOK"
      true true .basic ⟨200, 10, 1000⟩ (by decide)
  · exact validation_before_backend.2.1 emptySearchClient "@Handle".toList "relevance" 5 none
      true true .basic ⟨200, 10, 1000⟩ (by decide) (by decide)
  · exact validation_before_backend.2.2 emptySearchClient "@Handle".toList "   " none 5
      true true .basic "date" ⟨200, 10, 1000⟩ (by rfl)

/-! ### The truncation flag (C2) -/

theorem estimate_ok_pos (strategy : OrderStrategy) (r : Int) (budget : QuotaBudget)
    (d : Bool) (e : QuotaEstimate)
    (h : estimate_channel_videos_quota strategy r budget d = .ok e) : 0 < r := by
  unfold estimate_channel_videos_quota at h
  split at h
  · cases h
  · omega

/-- C2 (amended): `truncated` is true precisely when the pipeline stopped
before exhausting the logical result set due to a caller- or budget-imposed
limit for the uploads_playlist strategy (more identifiers extracted than
kept) and for the local_sort strategy (more identifiers accumulated than
kept, or an unconsumed continuation token remained); but the search_api
strategy always reports truncated=false, even when its extraction stopped
at maxItems while more backend items existed. -/
theorem truncated_flag_characterization :
    (∀ (client : Client) (channel_ref : PyStr) (max_videos : Int)
        (page_token : Option String) (incS incL : Bool) (parts_level : PartsLevel)
        (budget : QuotaBudget) (qe : QuotaEstimate) (rc : ResolvedChannel) (cs : List Call)
        (u : String) (page : ChannelVideosPage) (tr : List Call),
      estimate_channel_videos_quota .uploads_playlist max_videos budget true = .ok qe →
      resolve_channel client channel_ref .strict true = (.ok rc, cs) →
      rc.uploads_playlist_id = some u → u ≠ "" →
      list_channel_videos_page client channel_ref max_videos page_token incS incL
        parts_level budget = (.ok page, tr) →
      (page.truncated = true ↔
        max_videos < ((extract_video_ids (lookupJ (client.playlist_items_list
          "snippet,contentDetails" (uploads_playlist_params u page_token)) "items")
          none).length : Int)))
    ∧ (∀ (client : Client) (channel_ref : PyStr) (order_by : String) (max_videos : Int)
        (page_token : Option String) (incS incL : Bool) (parts_level : PartsLevel)
        (budget : QuotaBudget) (qe : QuotaEstimate) (rc : ResolvedChannel) (cs : List Call)
        (u : String) (ids0 : List String) (token : Option String) (cs2 : List Call)
        (page : ChannelVideosPage) (tr : List Call),
      estimate_channel_videos_quota .local_sort max_videos budget true = .ok qe →
      resolve_channel client channel_ref .strict true = (.ok rc, cs) →
      rc.uploads_playlist_id = some u → u ≠ "" →
      local_collect client u max_videos budget.max_pages.toNat none [] cs
        = (ids0, token, cs2) →
      list_channel_videos_local_sorted client channel_ref order_by max_videos page_token
        incS incL parts_level budget = (.ok page, tr) →
      (page.truncated = true ↔ (max_videos < (ids0.length : Int) ∨ token ≠ none)))
    ∧ (∀ (client : Client) (channel_ref : PyStr) (order_by : String) (max_videos : Int)
        (page_token : Option String) (incS incL : Bool) (parts_level : PartsLevel)
        (budget : QuotaBudget) (page : ChannelVideosPage) (tr : List Call),
      list_channel_videos_search_api client channel_ref order_by max_videos page_token
        incS incL parts_level budget = (.ok page, tr) →
      page.truncated = false) := by
  refine ⟨?_, ?_, ?_⟩
  · intro client channel_ref max_videos page_token incS incL parts_level budget qe rc cs u
      page tr hest hres hu hne hrun
    have hpos := estimate_ok_pos _ _ _ _ _ hest
    rw [list_channel_videos_page_run client channel_ref max_videos page_token incS incL
      parts_level budget qe rc cs u hest hres hu hne] at hrun
    unfold uploadsAfterResolve at hrun
    dsimp only at hrun
    set ids0 := extract_video_ids (lookupJ (client.playlist_items_list
      "snippet,contentDetails" (uploads_playlist_params u page_token)) "items") none
      with hids0
    by_cases hc : max_videos < (ids0.length : Int)
    · rw [if_pos hc] at hrun
      have hlen : ids0 ≠ [] := by
        intro hnil
        rw [hnil] at hc
        simp at hc
        omega
      obtain ⟨x, xs, hx⟩ : ∃ x xs, ids0.take max_videos.toNat = x :: xs := by
        cases ht : ids0.take max_videos.toNat with
        | cons x xs => exact ⟨x, xs, rfl⟩
        | nil =>
          exfalso
          rcases hI : ids0 with _ | ⟨y, ys⟩
          · exact hlen hI
          · rcases hmt : max_videos.toNat with _ | n
            · omega
            · rw [hI, hmt] at ht
              simp [List.take] at ht
      rw [hx] at hrun
      dsimp only at hrun
      split at hrun
      · injection hrun with h1 h2
        cases h1
      · injection hrun with h1 h2
        injection h1 with h3
        subst h3
        dsimp only
        exact iff_of_true (decide_eq_true hc) hc
    · rw [if_neg hc] at hrun
      cases hI : ids0 with
      | nil =>
        rw [hI] at hrun hc
        dsimp only at hrun
        injection hrun with h1 h2
        injection h1 with h3
        subst h3
        dsimp only
        constructor
        · intro hfalse
          cases hfalse
        · intro habs
          simp at habs
          omega
      | cons x xs =>
        rw [hI] at hrun hc
        dsimp only at hrun
        split at hrun
        · injection hrun with h1 h2
          cases h1
        · injection hrun with h1 h2
          injection h1 with h3
          subst h3
          dsimp only
          exact iff_of_false (by rw [decide_eq_false hc]; exact Bool.false_ne_true) hc
  · intro client channel_ref order_by max_videos page_token incS incL parts_level budget
      qe rc cs u ids0 token cs2 page tr hest hres hu hne hcol hrun
    unfold list_channel_videos_local_sorted at hrun
    by_cases htok : truthyOpt page_token
    · rw [if_pos htok] at hrun
      injection hrun with h1 h2
      cases h1
    · rw [if_neg htok] at hrun
      rw [hest] at hrun
      dsimp only at hrun
      rw [hres] at hrun
      dsimp only at hrun
      rw [hu] at hrun
      dsimp only at hrun
      rw [if_neg hne] at hrun
      unfold localAfterResolve at hrun
      rw [hcol] at hrun
      dsimp only at hrun
      split at hrun
      · injection hrun with h1 h2
        cases h1
      · split at hrun
        · injection hrun with h1 h2
          cases h1
        · injection hrun with h1 h2
          injection h1 with h3
          subst h3
          dsimp only
          cases token with
          | none => simp
          | some t => simp
  · intro client channel_ref order_by max_videos page_token incS incL parts_level budget
      page tr hrun
    unfold list_channel_videos_search_api searchTail at hrun
    dsimp only at hrun
    repeat' split at hrun
    all_goals injection hrun with h1 h2
    all_goals first
      | (injection h1 with h3; subst h3; rfl)
      | cases h1

/-- C2 counterexample: a search_api run that stopped at maxItems=2 while a
third backend item existed and a continuation token was present still
reports truncated=false. -/
theorem truncated_flag_characterization_cex :
    list_channel_videos_search_api searchTruncClient "@Handle".toList "date" 2 none
        true true .basic ⟨200, 10, 1000⟩
      = (.ok ⟨[.obj [("id", .str "v1")], .obj [("id", .str "v2")]], some "NEXT",
          ⟨101, .search_api, []⟩, false, 2⟩,
         [⟨.channelsList, "snippet,id", [("forHandle", "@Handle")]⟩,
          ⟨.searchList, "snippet", searchParams "UC_x" "date" none⟩,
          ⟨.videosList, detailPart .basic, [("id", String.intercalate "," ["v1", "v2"])]⟩])
    ∧ extract_search_video_ids (lookupJ (searchTruncClient.search_list "snippet"
        (searchParams "UC_x" "date" none)) "items") 3 = ["v1", "v2", "v3"] := by
  exact ⟨by rfl, by rfl⟩

/-- Witness for `truncated_flag_characterization`: the search-strategy
conjunct applied at the concrete truncating run above. -/
theorem truncated_flag_characterization_witness :
    (list_channel_videos_search_api searchTruncClient "@Handle".toList "date" 2 none
        true true .basic ⟨200, 10, 1000⟩).1
      = .ok ⟨[.obj [("id", .str "v1")], .obj [("id", .str "v2")]], some "NEXT",
          ⟨101, .search_api, []⟩, false, 2⟩
    ∧ (⟨[.obj [("id", .str "v1")], .obj [("id", .str "v2")]], some "NEXT",
          ⟨101, .search_api, []⟩, false, 2⟩ : ChannelVideosPage).truncated = false := by
  refine ⟨by rfl, ?_⟩
  exact truncated_flag_characterization.2.2 searchTruncClient "@Handle".toList "date" 2 none
    true true .basic ⟨200, 10, 1000⟩
    ⟨[.obj [("id", .str "v1")], .obj [("id", .str "v2")]], some "NEXT",
      ⟨101, .search_api, []⟩, false, 2⟩
    [⟨.channelsList, "snippet,id", [("forHandle", "@Handle")]⟩,
     ⟨.searchList, "snippet", searchParams "UC_x" "date" none⟩,
     ⟨.videosList, detailPart .basic, [("id", String.intercalate "," ["v1", "v2"])]⟩]
    (by rfl)

end YtMcp
